import Mathlib

/-!
Shallow embedding of `src/pong.py` (a Turtle-graphics Pong clone).

Python floats are modelled as rationals (every IEEE double is a rational;
the program only performs field operations on them, except for the calls
to the float library's `cos`/`sin`, which are passed in as oracle
functions `cosF sinF : ℚ → ℚ`).  Random sources (`randint`) are passed in
as explicit oracle arguments; the `randint a b` contract (result in
`[a, b]`) becomes a hypothesis where a theorem needs it.  Rendering is
modelled by counting `draw` invocations: each `update`-like operation
returns, besides the new state, the number of draw calls it issued.
`sleep` (real time) has no state effect and is not modelled.
-/

namespace Pong

/-- Window constants from the top of `pong.py`. -/
def WIDTH : ℚ := 600

def HEIGHT : ℚ := 600

def RIGHT : ℚ := 300

def LEFT : ℚ := -300

def TOP : ℚ := 300

def BOTTOM : ℚ := -300

def BALL_SIZE : ℚ := 12

def BALL_SPEED : ℚ := 10

/-- Constant `BALL_SPEED_INCREASE = 0.25` (exact as a double). -/
def BALL_SPEED_INCREASE : ℚ := 1/4

def PADDLE_WIDTH : ℚ := 80

def PADDLE_HEIGHT : ℚ := 10

def PADDLE_SPEED : ℚ := 8

def PADDLE_DIST_FROM_BORDER : ℚ := 50

def PADDLE_BOUNDARY : ℚ := 5

def TOP_PADDLE_Y : ℚ := 250

def BOTTOM_PADDLE_Y : ℚ := -250

def BOUNCE_SHARPNESS : ℚ := 90

def BOUNCE_RAND_FACTOR : ℤ := 25

/-- Constant `AI_VISIBILITY_RANGE = int(HEIGHT/1.8) = int(333.33…) = 333`. -/
def AI_VISIBILITY_RANGE : ℚ := 333

def AI_PADDLE_SPEED : ℚ := 5

/-- Type `Hitbox = (min_x, max_x, min_y, max_y)`. -/
structure Hitbox where
  minX : ℚ
  maxX : ℚ
  minY : ℚ
  maxY : ℚ
deriving DecidableEq

/-- Shared state of `Sprite` (base class): geometry, the stored hitbox
(possibly stale between a position mutation and the next
`update_hitbox`) and the dirty flag `changed`. -/
structure Sprite where
  width : ℚ
  height : ℚ
  x : ℚ
  y : ℚ
  hitbox : Hitbox
  changed : Bool
deriving DecidableEq

/-- The hitbox formula used by `Sprite.__init__` and
`Sprite.update_hitbox`: `(x-w/2, x+w/2, y-h/2, y+h/2)`. -/
def mkHitbox (x y w h : ℚ) : Hitbox :=
  ⟨x - w/2, x + w/2, y - h/2, y + h/2⟩

/-- Method `Sprite.update_hitbox`. -/
def update_hitbox (s : Sprite) : Sprite :=
  { s with hitbox := mkHitbox s.x s.y s.width s.height }

/-- Method `Sprite.update`: if `changed`, refresh the hitbox, draw once, clear
the flag.  Returns the new state and the number of draw calls. -/
def sprite_update (s : Sprite) : Sprite × ℕ :=
  if s.changed then ({ update_hitbox s with changed := false }, 1)
  else (s, 0)

/-- State of `Scorekeeper` (its `width`/`height` default to 0). -/
structure Scorekeeper where
  spr : Sprite
  score : ℕ
deriving DecidableEq

/-- Method `Scorekeeper.scored`: increment the score and mark dirty. -/
def scored (k : Scorekeeper) : Scorekeeper :=
  { k with score := k.score + 1, spr := { k.spr with changed := true } }

/-- State of `Paddle`: `shift` is the per-move displacement (named `speed`
in the constructor), plus the two movement-intent booleans. -/
structure Paddle where
  spr : Sprite
  shift : ℚ
  moving_left : Bool
  moving_right : Bool
deriving DecidableEq

/-- Method `Paddle.left`: move left by `shift`, but only if the *stored*
hitbox's left edge is still right of `-WIDTH/2 + PADDLE_BOUNDARY`. -/
def Paddle.left (p : Paddle) : Paddle :=
  if p.spr.hitbox.minX > -WIDTH/2 + PADDLE_BOUNDARY then
    { p with spr := { p.spr with x := p.spr.x - p.shift } }
  else p

/-- Method `Paddle.right`: mirrored bound check against the right margin. -/
def Paddle.right (p : Paddle) : Paddle :=
  if p.spr.hitbox.maxX < WIDTH/2 - PADDLE_BOUNDARY then
    { p with spr := { p.spr with x := p.spr.x + p.shift } }
  else p

/-- Method `Paddle.update`: `if moving_left: left(); changed = True`
`elif moving_right: right(); changed = True`; then, if `changed`,
refresh the hitbox and draw; finally `changed = False` unconditionally.
Returns the new state and the number of draw calls. -/
def Paddle.update (p : Paddle) : Paddle × ℕ :=
  let p1 :=
    if p.moving_left then
      let q := p.left
      { q with spr := { q.spr with changed := true } }
    else if p.moving_right then
      let q := p.right
      { q with spr := { q.spr with changed := true } }
    else p
  if p1.spr.changed then
    ({ p1 with spr := { update_hitbox p1.spr with changed := false } }, 1)
  else
    ({ p1 with spr := { p1.spr with changed := false } }, 0)

/-- State of `Ball`.  `dir` is the direction angle in degrees, `shift` the
current speed. -/
structure Ball where
  spr : Sprite
  dir : ℚ
  base_speed : ℚ
  shift : ℚ
  bounces : ℕ
deriving DecidableEq

/-- Python's `%` on floats with positive modulus: `a - b • ⌊a/b⌋`,
giving a result in `[0, b)` for `b > 0`. -/
def pymod (a b : ℚ) : ℚ := a - b * (⌊a / b⌋ : ℤ)

/-- Method `Ball.rand_dir`: `randint(25,155)` gives `d`, then with the coin
`c` (`randint(0,1) == 1`) add 180. -/
def rand_dir (d : ℤ) (c : Bool) : ℚ :=
  if c then (d : ℚ) + 180 else (d : ℚ)

/-- Method `Ball.reset`: recenter, zero the bounce counter, restore base
speed, roll a new direction from the oracle `rd`, refresh the hitbox
and draw (one draw call, accounted by the caller); `sleep(.5)` has no
state effect. -/
def Ball.reset (rd : ℤ × Bool) (b : Ball) : Ball :=
  let b1 := { b with
    spr := { b.spr with x := 0, y := 0 },
    bounces := 0,
    shift := b.base_speed,
    dir := rand_dir rd.1 rd.2 }
  { b1 with spr := update_hitbox b1.spr }

/-- The paddle-collision test in `Ball.check_collisions`:
`ball.hb[2] <= p.hb[3] and ball.hb[3] >= p.hb[3] and
 ball.hb[0] <= p.hb[1] and ball.hb[1] >= p.hb[0]`. -/
def hitsPaddle (bh ph : Hitbox) : Prop :=
  bh.minY ≤ ph.maxY ∧ ph.maxY ≤ bh.maxY ∧ bh.minX ≤ ph.maxX ∧ ph.minX ≤ bh.maxX

instance (bh ph : Hitbox) : Decidable (hitsPaddle bh ph) :=
  inferInstanceAs (Decidable (_ ∧ _ ∧ _ ∧ _))

/-- The body of the paddle loop for one colliding paddle: increment the
bounce counter and recompute the direction (`j` is the
`randint(-BOUNCE_RAND_FACTOR, BOUNCE_RAND_FACTOR)` jitter). -/
def paddleBounce (j : ℤ) (p : Paddle) (b : Ball) : Ball :=
  let b1 := { b with bounces := b.bounces + 1 }
  if p.spr.y < 0 then
    { b1 with dir :=
        90 + BOUNCE_SHARPNESS * ((p.spr.x - b.spr.x)/2) / (p.spr.width/2) + (j : ℚ) }
  else
    { b1 with dir :=
        270 - BOUNCE_SHARPNESS * ((p.spr.x - b.spr.x)/2) / (p.spr.width/2) + (j : ℚ) }

/-- The `for paddle in self.paddles` loop of `Ball.check_collisions`;
`js` is the stream of jitter values, `k` the index of the next one
(a fresh `randint` is drawn per registered collision). -/
def paddleLoop (js : ℕ → ℤ) (k : ℕ) (ps : List Paddle) (b : Ball) : Ball :=
  match ps with
  | [] => b
  | p :: rest =>
    if hitsPaddle b.spr.hitbox p.spr.hitbox then
      paddleLoop js (k+1) rest (paddleBounce (js k) p b)
    else
      paddleLoop js k rest b

/-- Method `Ball.check_collisions`: wall / bottom-goal / top-goal `if-elif`
chain, then the paddle loop (the loop runs in every case).  `rd` is the
oracle for the `rand_dir` call inside `reset`; the returned `ℕ` counts
the draw calls issued (the one inside `reset` on a goal).  The
`score >= 9` checks are `pass` (no-ops) in the source. -/
def check_collisions (rd : ℤ × Bool) (js : ℕ → ℤ) (ps : List Paddle)
    (b : Ball) (s0 s1 : Scorekeeper) : Ball × Scorekeeper × Scorekeeper × ℕ :=
  if b.spr.hitbox.minX ≤ LEFT ∨ b.spr.hitbox.maxX ≥ RIGHT then
    (paddleLoop js 0 ps { b with dir := 180 - pymod b.dir 360 }, s0, s1, 0)
  else if b.spr.hitbox.minY ≤ BOTTOM + 10 then
    (paddleLoop js 0 ps (Ball.reset rd { b with dir := 360 - pymod b.dir 360 }),
     scored s0, s1, 1)
  else if b.spr.hitbox.maxY ≥ TOP then
    (paddleLoop js 0 ps (Ball.reset rd { b with dir := 360 - pymod b.dir 360 }),
     s0, scored s1, 1)
  else
    (paddleLoop js 0 ps b, s0, s1, 0)

/-- Method `Ball.update`: collisions first, then speed escalation, then Euler
integration `x += shift*cos(radians(dir))`, `y += shift*sin(radians(dir))`
(the float library's `cos∘radians`/`sin∘radians` are the oracles
`cosF`/`sinF`), then `changed = True` and `Sprite.update`.  The `ℕ`
component counts all draw calls of the tick. -/
def Ball.update (cosF sinF : ℚ → ℚ) (rd : ℤ × Bool) (js : ℕ → ℤ)
    (ps : List Paddle) (b : Ball) (s0 s1 : Scorekeeper) :
    Ball × Scorekeeper × Scorekeeper × ℕ :=
  let r := check_collisions rd js ps b s0 s1
  let b1 := r.1
  let sh := b1.base_speed + (b1.bounces : ℚ) * BALL_SPEED_INCREASE
  let b2 := { b1 with
    shift := sh,
    spr := { b1.spr with
      x := b1.spr.x + sh * cosF b1.dir,
      y := b1.spr.y + sh * sinF b1.dir,
      changed := true } }
  ({ b2 with spr := (sprite_update b2.spr).1 },
   r.2.1, r.2.2.1, r.2.2.2 + (sprite_update b2.spr).2)

/-- State of `AIPaddle`. -/
structure AIPaddle where
  pad : Paddle
  base_speed : ℚ
  sees_ball : Bool
  rand_dir_set : Bool
deriving DecidableEq

/-- Method `AIPaddle.set_dir`: deadband within `1.5 * base_speed` of the ball
(sets the shift to 0), else set the intent toward the ball. -/
def AIPaddle.set_dir (ballx : ℚ) (a : AIPaddle) : AIPaddle :=
  if |a.pad.spr.x - ballx| < 3/2 * a.base_speed then
    { a with pad := { a.pad with shift := 0 } }
  else if a.pad.spr.x > ballx then
    { a with pad := { a.pad with moving_left := true, moving_right := false } }
  else
    { a with pad := { a.pad with moving_left := false, moving_right := true } }

/-- Method `AIPaddle.rand_dir`: random shift `rs = randint(0, base_speed)` and
a random left/right intent from the coin `rb`. -/
def AIPaddle.rand_dir (rs : ℤ) (rb : Bool) (a : AIPaddle) : AIPaddle :=
  let a1 := { a with pad := { a.pad with shift := (rs : ℚ) } }
  if rb then
    { a1 with pad := { a1.pad with moving_left := true, moving_right := false } }
  else
    { a1 with pad := { a1.pad with moving_left := false, moving_right := true } }

/-- Method `AIPaddle.update`: visibility test, tracking/wandering intent
logic, then its *own* `if moving_left: left()` / `if moving_right:
right()` blocks (independent `if`s), then `super().update()` — i.e.
`Paddle.update`, which applies the movement a second time against the
hitbox that has not been refreshed in between. -/
def AIPaddle.update (rs : ℤ) (rb : Bool) (ballx bally : ℚ) (a : AIPaddle) :
    AIPaddle × ℕ :=
  let a1 :=
    if |a.pad.spr.y - bally| < AI_VISIBILITY_RANGE then
      { a with sees_ball := true }
    else
      { a with sees_ball := false }
  let a2 :=
    if a1.sees_ball then
      let t := { a1 with pad := { a1.pad with shift := a1.base_speed } }
      { AIPaddle.set_dir ballx t with rand_dir_set := false }
    else if a1.rand_dir_set = false then
      { AIPaddle.rand_dir rs rb a1 with rand_dir_set := true }
    else a1
  let a3 :=
    if a2.pad.moving_left then
      let q := a2.pad.left
      { a2 with pad := { q with spr := { q.spr with changed := true } } }
    else a2
  let a4 :=
    if a3.pad.moving_right then
      let q := a3.pad.right
      { a3 with pad := { q with spr := { q.spr with changed := true } } }
    else a3
  ((⟨(Paddle.update a4.pad).1, a4.base_speed, a4.sees_ball, a4.rand_dir_set⟩ : AIPaddle),
   (Paddle.update a4.pad).2)

/-- Iterated paddle ticks (the game loop calling `Paddle.update` each
tick while the key state, hence the intents, stay fixed). -/
def runTicks (p : Paddle) : ℕ → Paddle
  | 0 => p
  | n+1 => (Paddle.update (runTicks p n)).1

/-- Concrete player paddle of `main()` (width 80, height 10, start
`x = 0`, `y = TOP_PADDLE_Y = 250`, speed 8) with the left key held and
a refreshed hitbox. -/
def p0 : Paddle :=
  { spr := { width := 80, height := 10, x := 0, y := 250,
             hitbox := ⟨-40, 40, 245, 255⟩, changed := false },
    shift := 8, moving_left := true, moving_right := false }

/-- State reached from `p0` after `n` ticks of holding the left key,
for `n ≤ 32` (closed form, proved below). -/
def p0run (n : ℕ) : Paddle :=
  { spr := { width := 80, height := 10, x := -8*(n:ℚ), y := 250,
             hitbox := ⟨-8*(n:ℚ) - 40, -8*(n:ℚ) + 40, 245, 255⟩, changed := false },
    shift := 8, moving_left := true, moving_right := false }

/-- The player paddle of `main()` with both movement intents set. -/
def pBoth : Paddle :=
  { spr := { width := 80, height := 10, x := 0, y := 250,
             hitbox := ⟨-40, 40, 245, 255⟩, changed := false },
    shift := 8, moving_left := true, moving_right := true }

/-- A scorekeeper of `main()` (score 0). -/
def sk0 : Scorekeeper :=
  { spr := { width := 0, height := 0, x := -250, y := 100,
             hitbox := ⟨-250, -250, 100, 100⟩, changed := false }, score := 0 }

/-- A ball in the bottom-left corner: its hitbox satisfies *both* the
side-wall condition (`minX = -306 ≤ -300`) and the bottom-goal
condition (`minY = -296 ≤ -290`). -/
def cornerBall : Ball :=
  { spr := { width := 12, height := 12, x := -300, y := -290,
             hitbox := ⟨-306, -294, -296, -284⟩, changed := false },
    dir := 300, base_speed := 10, shift := 10, bounces := 3 }

/-- A ball whose hitbox top edge is exactly `TOP - 10 = 290`, away from
the side walls and the bottom goal line. -/
def topNearBall : Ball :=
  { spr := { width := 12, height := 12, x := 0, y := 284,
             hitbox := ⟨-6, 6, 278, 290⟩, changed := false },
    dir := 80, base_speed := 10, shift := 10, bounces := 0 }

/-- A ball whose hitbox top edge is past `TOP` (top goal fires). -/
def topGoalBall : Ball :=
  { spr := { width := 12, height := 12, x := 0, y := 295,
             hitbox := ⟨-6, 6, 289, 301⟩, changed := false },
    dir := 80, base_speed := 10, shift := 10, bounces := 1 }

/-- A ball past the bottom goal line (`minY = -296 ≤ -290`) and away
from the side walls. -/
def goalBall : Ball :=
  { spr := { width := 12, height := 12, x := 0, y := -290,
             hitbox := ⟨-6, 6, -296, -284⟩, changed := false },
    dir := 260, base_speed := 10, shift := 10, bounces := 2 }

/-- A ball touching the left wall (`minX = -301 ≤ -300`), above the
goal lines. -/
def wallBall : Ball :=
  { spr := { width := 12, height := 12, x := -295, y := 0,
             hitbox := ⟨-301, -289, -6, 6⟩, changed := false },
    dir := 130, base_speed := 10, shift := 10, bounces := 0 }

/-- The AI paddle of `main()` (width 80, height 10, `y = -250`,
speed 5), idle and with a refreshed hitbox. -/
def ai0 : AIPaddle :=
  { pad := { spr := { width := 80, height := 10, x := 0, y := -250,
                      hitbox := ⟨-40, 40, -255, -245⟩, changed := false },
             shift := 5, moving_left := false, moving_right := false },
    base_speed := 5, sees_ball := true, rand_dir_set := false }

/-- The bottom (AI) paddle together with a ball overlapping its top
edge band, a registered paddle collision. -/
def hitPaddle : Paddle :=
  { spr := { width := 80, height := 10, x := 20, y := -250,
             hitbox := ⟨-20, 60, -255, -245⟩, changed := false },
    shift := 5, moving_left := false, moving_right := false }

def hitBall : Ball :=
  { spr := { width := 12, height := 12, x := 0, y := -245,
             hitbox := ⟨-6, 6, -251, -239⟩, changed := false },
    dir := 260, base_speed := 10, shift := 10, bounces := 4 }

/-- A bounce leaves the ball's `Sprite` state untouched: it only
changes `bounces` and `dir`. -/
lemma paddleBounce_spr (j : ℤ) (p : Paddle) (b : Ball) :
    (paddleBounce j p b).spr = b.spr := by
  unfold paddleBounce
  split <;> rfl

/-- The paddle loop never changes the ball's `Sprite` state (position,
size, hitbox, dirty flag). -/
lemma paddleLoop_spr (js : ℕ → ℤ) (ps : List Paddle) :
    ∀ k b, (paddleLoop js k ps b).spr = b.spr := by
  induction ps with
  | nil => intro k b; rfl
  | cons p rest ih =>
    intro k b
    show (if hitsPaddle b.spr.hitbox p.spr.hitbox then
            paddleLoop js (k+1) rest (paddleBounce (js k) p b)
          else paddleLoop js k rest b).spr = b.spr
    split
    · rw [ih]; exact paddleBounce_spr ..
    · exact ih ..

/-- If no paddle overlaps the ball's hitbox, the paddle loop is the
identity. -/
lemma paddleLoop_no_hit (js : ℕ → ℤ) (ps : List Paddle) :
    ∀ k b, (∀ q ∈ ps, ¬ hitsPaddle b.spr.hitbox q.spr.hitbox) →
      paddleLoop js k ps b = b := by
  induction ps with
  | nil => intro k b _; rfl
  | cons p rest ih =>
    intro k b h
    show (if hitsPaddle b.spr.hitbox p.spr.hitbox then
            paddleLoop js (k+1) rest (paddleBounce (js k) p b)
          else paddleLoop js k rest b) = b
    rw [if_neg (h p (List.mem_cons_self ..))]
    exact ih k b fun q hq => h q (List.mem_cons_of_mem _ hq)

/-- Halved-numerator over halved-denominator cancels: the source's
`S*((a)/2)/((w)/2)` equals `S*a/w` (also when `w = 0`, where both
sides are 0 by convention). -/
lemma half_div_half (S a w : ℚ) : S * (a/2) / (w/2) = S * a / w := by
  rcases eq_or_ne w 0 with h | h
  · simp [h]
  · field_simp

@[simp] lemma mkHitbox_minX (x y w h : ℚ) : (mkHitbox x y w h).minX = x - w/2 := rfl

@[simp] lemma mkHitbox_maxX (x y w h : ℚ) : (mkHitbox x y w h).maxX = x + w/2 := rfl

@[simp] lemma mkHitbox_minY (x y w h : ℚ) : (mkHitbox x y w h).minY = y - h/2 := rfl

@[simp] lemma mkHitbox_maxY (x y w h : ℚ) : (mkHitbox x y w h).maxY = y + h/2 := rfl

/-- One tick of `Paddle.update` with the left intent set and the left
bound check passing: the paddle moves left by `shift` and its hitbox is
refreshed. -/
lemma update_left_guard_pos (p : Paddle) (hl : p.moving_left = true)
    (hg : p.spr.hitbox.minX > -WIDTH/2 + PADDLE_BOUNDARY) :
    (Paddle.update p).1 =
      { spr :=
          { width := p.spr.width
            height := p.spr.height
            x := p.spr.x - p.shift
            y := p.spr.y
            hitbox := mkHitbox (p.spr.x - p.shift) p.spr.y p.spr.width p.spr.height
            changed := false }
        shift := p.shift
        moving_left := p.moving_left
        moving_right := p.moving_right } := by
  unfold Paddle.update Paddle.left
  simp only [hl, if_true, if_pos hg, update_hitbox]

/-- One tick of `Paddle.update` with the left intent set and the left
bound check failing: position is unchanged (the hitbox is still
refreshed, since the intent alone sets `changed`). -/
lemma update_left_guard_neg (p : Paddle) (hl : p.moving_left = true)
    (hg : ¬ (p.spr.hitbox.minX > -WIDTH/2 + PADDLE_BOUNDARY)) :
    (Paddle.update p).1 =
      { spr :=
          { width := p.spr.width
            height := p.spr.height
            x := p.spr.x
            y := p.spr.y
            hitbox := mkHitbox p.spr.x p.spr.y p.spr.width p.spr.height
            changed := false }
        shift := p.shift
        moving_left := p.moving_left
        moving_right := p.moving_right } := by
  unfold Paddle.update Paddle.left
  simp only [hl, if_true, if_neg hg, update_hitbox]

/-- Invariants of the left-held run: the intent, shift and width are
preserved, the hitbox stays consistent, and the hitbox left edge never
drops to `-WIDTH/2 + PADDLE_BOUNDARY - shift` or below. -/
lemma runTicks_left_inv (p : Paddle) (hl : p.moving_left = true)
    (hc : p.spr.hitbox = mkHitbox p.spr.x p.spr.y p.spr.width p.spr.height) :
    ∀ n : ℕ,
      (runTicks p n).moving_left = true ∧
      (runTicks p n).shift = p.shift ∧
      (runTicks p n).spr.width = p.spr.width ∧
      (runTicks p n).spr.hitbox =
        mkHitbox (runTicks p n).spr.x (runTicks p n).spr.y
          (runTicks p n).spr.width (runTicks p n).spr.height ∧
      (-WIDTH/2 + PADDLE_BOUNDARY - p.shift < p.spr.hitbox.minX →
        -WIDTH/2 + PADDLE_BOUNDARY - p.shift < (runTicks p n).spr.hitbox.minX) := by
  intro n
  induction n with
  | zero => exact ⟨hl, rfl, rfl, hc, fun h => h⟩
  | succ n ih =>
    obtain ⟨ihl, ihs, ihw, ihc, ihb⟩ := ih
    have hrw : runTicks p (n+1) = (Paddle.update (runTicks p n)).1 := rfl
    have hminX : (runTicks p n).spr.hitbox.minX
        = (runTicks p n).spr.x - (runTicks p n).spr.width/2 := by
      rw [ihc, mkHitbox_minX]
    by_cases hg : (runTicks p n).spr.hitbox.minX > -WIDTH/2 + PADDLE_BOUNDARY
    · rw [hrw, update_left_guard_pos (runTicks p n) ihl hg]
      refine ⟨ihl, ihs, ihw, rfl, fun _ => ?_⟩
      simp only [mkHitbox_minX]
      rw [hminX] at hg
      rw [ihs]
      linarith
    · rw [hrw, update_left_guard_neg (runTicks p n) ihl hg]
      refine ⟨ihl, ihs, ihw, rfl, fun h0 => ?_⟩
      simp only [mkHitbox_minX]
      rw [hminX] at ihb
      exact ihb h0

/-- C1, amended.  The claim "the hitbox left edge is never less than
`-WIDTH/2 + PADDLE_BOUNDARY = -295`" fails: the bound check in
`Paddle.left` is evaluated *before* the move, so one move can overshoot
the margin by up to `shift`.  What holds: along a run of left-moving
ticks the left edge always stays strictly above
`-WIDTH/2 + PADDLE_BOUNDARY - shift`, and once the left edge has
reached the margin (`minX ≤ -295`) leftward motion halts (the next tick
leaves `x` unchanged). -/
theorem c1_paddle_left_edge_amended (p : Paddle) (n : ℕ)
    (hl : p.moving_left = true)
    (hc : p.spr.hitbox = mkHitbox p.spr.x p.spr.y p.spr.width p.spr.height)
    (h0 : -WIDTH/2 + PADDLE_BOUNDARY - p.shift < p.spr.hitbox.minX) :
    -WIDTH/2 + PADDLE_BOUNDARY - p.shift < (runTicks p n).spr.hitbox.minX ∧
    ((runTicks p n).spr.hitbox.minX ≤ -WIDTH/2 + PADDLE_BOUNDARY →
      (runTicks p (n+1)).spr.x = (runTicks p n).spr.x) := by
  obtain ⟨ihl, ihs, ihw, ihc, ihb⟩ := runTicks_left_inv p hl hc n
  refine ⟨ihb h0, fun hle => ?_⟩
  have hg : ¬ ((runTicks p n).spr.hitbox.minX > -WIDTH/2 + PADDLE_BOUNDARY) :=
    not_lt.mpr hle
  rw [show runTicks p (n+1) = (Paddle.update (runTicks p n)).1 from rfl,
      update_left_guard_neg (runTicks p n) ihl hg]

/-- Closed form of the left-held run from `p0`: `x = -8n` for
`n ≤ 32`. -/
lemma runTicks_p0_closed : ∀ n : ℕ, n ≤ 32 → runTicks p0 n = p0run n := by
  intro n
  induction n with
  | zero =>
    intro _
    show p0 = p0run 0
    norm_num [p0, p0run]
  | succ n ih =>
    intro h
    have hn31 : (n : ℚ) ≤ 31 := by
      have : n ≤ 31 := Nat.lt_succ_iff.mp h
      exact_mod_cast this
    show (Paddle.update (runTicks p0 n)).1 = p0run (n+1)
    rw [ih (Nat.le_of_succ_le h)]
    have hg : (p0run n).spr.hitbox.minX > -WIDTH/2 + PADDLE_BOUNDARY := by
      show -8*(n:ℚ) - 40 > -WIDTH/2 + PADDLE_BOUNDARY
      unfold WIDTH PADDLE_BOUNDARY
      linarith
    rw [update_left_guard_pos (p0run n) rfl hg]
    unfold p0run mkHitbox
    norm_num [Paddle.mk.injEq, Sprite.mk.injEq, Hitbox.mk.injEq]
    ring

/-- C1, counterexample to the claim as stated: starting from the
player paddle of `main()` at `x = 0` and holding the left key, after 32
ticks the hitbox left edge is `-296`, strictly below
`-WIDTH/2 + PADDLE_BOUNDARY = -295`. -/
theorem c1_left_edge_overshoot :
    (runTicks p0 32).spr.hitbox.minX = -296 ∧
    (runTicks p0 32).spr.hitbox.minX < -WIDTH/2 + PADDLE_BOUNDARY := by
  rw [runTicks_p0_closed 32 (by norm_num)]
  norm_num [p0run, WIDTH, PADDLE_BOUNDARY]

/-- C1, witness for the amended theorem at the concrete paddle `p0`
and `n = 5`. -/
theorem c1_witness :
    -WIDTH/2 + PADDLE_BOUNDARY - p0.shift < (runTicks p0 5).spr.hitbox.minX ∧
    ((runTicks p0 5).spr.hitbox.minX ≤ -WIDTH/2 + PADDLE_BOUNDARY →
      (runTicks p0 6).spr.x = (runTicks p0 5).spr.x) :=
  c1_paddle_left_edge_amended p0 5 rfl (by norm_num [p0, mkHitbox])
    (by norm_num [p0, WIDTH, PADDLE_BOUNDARY])

/-- C3, amended.  In `Paddle.update` the two intents are *mutually
exclusive* (`if`/`elif`), left taking precedence: whenever
`moving_left` is set, the tick applies only the left bounds-checked
shift — whatever `moving_right` is — so with both intents set and both
bound checks passing the net displacement is `-shift`, not 0. -/
theorem c3_left_precedence_amended (p : Paddle) (hl : p.moving_left = true) :
    (Paddle.update p).1.spr.x =
      if p.spr.hitbox.minX > -WIDTH/2 + PADDLE_BOUNDARY then p.spr.x - p.shift
      else p.spr.x := by
  by_cases hg : p.spr.hitbox.minX > -WIDTH/2 + PADDLE_BOUNDARY
  · rw [update_left_guard_pos p hl hg, if_pos hg]
  · rw [update_left_guard_neg p hl hg, if_neg hg]

/-- C3, counterexample to the claim as stated: the player paddle with
*both* intents set and both bound checks passing moves by `-shift = -8`
in one tick — the net displacement is not 0, because `Paddle.update`
uses `elif` and never evaluates the right shift. -/
theorem c3_both_intents_not_cancelling :
    pBoth.moving_left = true ∧ pBoth.moving_right = true ∧
    pBoth.spr.hitbox.minX > -WIDTH/2 + PADDLE_BOUNDARY ∧
    pBoth.spr.hitbox.maxX < WIDTH/2 - PADDLE_BOUNDARY ∧
    (Paddle.update pBoth).1.spr.x = pBoth.spr.x - pBoth.shift ∧
    (Paddle.update pBoth).1.spr.x ≠ pBoth.spr.x := by
  have hg : pBoth.spr.hitbox.minX > -WIDTH/2 + PADDLE_BOUNDARY := by
    norm_num [pBoth, WIDTH, PADDLE_BOUNDARY]
  refine ⟨rfl, rfl, hg, by norm_num [pBoth, WIDTH, PADDLE_BOUNDARY], ?_, ?_⟩
  · rw [update_left_guard_pos pBoth rfl hg]
  · rw [update_left_guard_pos pBoth rfl hg]
    norm_num [pBoth]

/-- C3, witness for the amended theorem at the concrete paddle
`pBoth`. -/
theorem c3_witness :
    (Paddle.update pBoth).1.spr.x =
      if pBoth.spr.hitbox.minX > -WIDTH/2 + PADDLE_BOUNDARY then
        pBoth.spr.x - pBoth.shift
      else pBoth.spr.x :=
  c3_left_precedence_amended pBoth rfl

/-- C10: when the ball's hitbox satisfies a side-wall condition and a
goal-line condition on the same tick, the `if`/`elif` chain takes only
the wall branch: neither score changes and the ball keeps its position
(it is not reset). -/
theorem c10_wall_goal_exclusive (rd : ℤ × Bool) (js : ℕ → ℤ) (ps : List Paddle)
    (b : Ball) (s0 s1 : Scorekeeper)
    (hw : b.spr.hitbox.minX ≤ LEFT ∨ b.spr.hitbox.maxX ≥ RIGHT)
    (hg : b.spr.hitbox.minY ≤ BOTTOM + 10 ∨ b.spr.hitbox.maxY ≥ TOP) :
    (check_collisions rd js ps b s0 s1).2.1 = s0 ∧
    (check_collisions rd js ps b s0 s1).2.2.1 = s1 ∧
    (check_collisions rd js ps b s0 s1).1.spr.x = b.spr.x ∧
    (check_collisions rd js ps b s0 s1).1.spr.y = b.spr.y := by
  unfold check_collisions
  rw [if_pos hw]
  refine ⟨rfl, rfl, ?_, ?_⟩ <;> rw [paddleLoop_spr]

/-- C10, witness at the corner ball, whose hitbox meets the left wall
and the bottom goal line simultaneously. -/
theorem c10_witness :
    (check_collisions (90, false) (fun _ => 0) [] cornerBall sk0 sk0).2.1 = sk0 ∧
    (check_collisions (90, false) (fun _ => 0) [] cornerBall sk0 sk0).2.2.1 = sk0 ∧
    (check_collisions (90, false) (fun _ => 0) [] cornerBall sk0 sk0).1.spr.x
      = cornerBall.spr.x ∧
    (check_collisions (90, false) (fun _ => 0) [] cornerBall sk0 sk0).1.spr.y
      = cornerBall.spr.y :=
  c10_wall_goal_exclusive (90, false) (fun _ => 0) [] cornerBall sk0 sk0
    (by norm_num [cornerBall, LEFT, RIGHT])
    (by norm_num [cornerBall, BOTTOM, TOP])

/-- C2, amended.  A tick whose start state has the ball's hitbox bottom
edge at or below `BOTTOM + 10` scores for `scores[0]` and resets the
ball *provided* no side-wall condition holds (the wall branch has
precedence), and no paddle's hitbox meets the freshly reset,
origin-centred ball hitbox (true of the game's paddles, whose hitboxes
sit at `y = ±250`): then `scores[0].score` increases by exactly 1, the
ball's position becomes `(0,0)` and its bounce counter 0 at the end of
the collision phase (the integration step of the same tick then moves
the ball one step off the origin). -/
theorem c2_bottom_goal_amended (rd : ℤ × Bool) (js : ℕ → ℤ) (ps : List Paddle)
    (b : Ball) (s0 s1 : Scorekeeper)
    (hw : ¬ (b.spr.hitbox.minX ≤ LEFT ∨ b.spr.hitbox.maxX ≥ RIGHT))
    (hgoal : b.spr.hitbox.minY ≤ BOTTOM + 10)
    (hp : ∀ q ∈ ps, ¬ hitsPaddle (mkHitbox 0 0 b.spr.width b.spr.height) q.spr.hitbox) :
    (check_collisions rd js ps b s0 s1).2.1.score = s0.score + 1 ∧
    (check_collisions rd js ps b s0 s1).1.spr.x = 0 ∧
    (check_collisions rd js ps b s0 s1).1.spr.y = 0 ∧
    (check_collisions rd js ps b s0 s1).1.bounces = 0 := by
  unfold check_collisions
  rw [if_neg hw, if_pos hgoal]
  have hreset : (Ball.reset rd { b with dir := 360 - pymod b.dir 360 }).spr.hitbox
      = mkHitbox 0 0 b.spr.width b.spr.height := rfl
  have hno : paddleLoop js 0 ps (Ball.reset rd { b with dir := 360 - pymod b.dir 360 })
      = Ball.reset rd { b with dir := 360 - pymod b.dir 360 } := by
    apply paddleLoop_no_hit
    intro q hq
    rw [hreset]
    exact hp q hq
  rw [hno]
  exact ⟨rfl, rfl, rfl, rfl⟩

/-- C2, counterexample to the claim as stated: the corner ball's bottom
edge is below `BOTTOM + 10`, yet the tick scores nothing and does not
reset the ball, because the side-wall branch fires first. -/
theorem c2_corner_goal_missed :
    cornerBall.spr.hitbox.minY ≤ BOTTOM + 10 ∧
    (check_collisions (90, false) (fun _ => 0) [] cornerBall sk0 sk0).2.1.score
      = sk0.score ∧
    (check_collisions (90, false) (fun _ => 0) [] cornerBall sk0 sk0).1.spr.x
      = cornerBall.spr.x ∧
    cornerBall.spr.x ≠ 0 := by
  have hwall : cornerBall.spr.hitbox.minX ≤ LEFT ∨ cornerBall.spr.hitbox.maxX ≥ RIGHT := by
    left
    norm_num [cornerBall, LEFT]
  refine ⟨by norm_num [cornerBall, BOTTOM], ?_, ?_, by norm_num [cornerBall]⟩
  · unfold check_collisions
    rw [if_pos hwall]
  · unfold check_collisions
    rw [if_pos hwall]
    rfl

/-- C2, witness for the amended theorem at a ball past the bottom goal
line and away from the walls, with no paddles. -/
theorem c2_witness :
    (check_collisions (90, false) (fun _ => 0) [] goalBall sk0 sk0).2.1.score
      = sk0.score + 1 ∧
    (check_collisions (90, false) (fun _ => 0) [] goalBall sk0 sk0).1.spr.x = 0 ∧
    (check_collisions (90, false) (fun _ => 0) [] goalBall sk0 sk0).1.spr.y = 0 ∧
    (check_collisions (90, false) (fun _ => 0) [] goalBall sk0 sk0).1.bounces = 0 :=
  c2_bottom_goal_amended (90, false) (fun _ => 0) [] goalBall sk0 sk0
    (by norm_num [goalBall, LEFT, RIGHT])
    (by norm_num [goalBall, BOTTOM])
    (by simp)

/-- C4, amended.  Top-goal detection is *not* symmetric to bottom-goal
detection: away from the walls and the bottom goal line, the top-goal
branch (credit `scores[1]`, reset the ball) fires exactly when the
hitbox top edge reaches `TOP` itself — there is no 10-unit inset at the
top, unlike the bottom's `BOTTOM + 10`. -/
theorem c4_top_goal_amended (rd : ℤ × Bool) (js : ℕ → ℤ) (ps : List Paddle)
    (b : Ball) (s0 s1 : Scorekeeper)
    (hw : ¬ (b.spr.hitbox.minX ≤ LEFT ∨ b.spr.hitbox.maxX ≥ RIGHT))
    (hb : ¬ (b.spr.hitbox.minY ≤ BOTTOM + 10)) :
    (TOP ≤ b.spr.hitbox.maxY →
      (check_collisions rd js ps b s0 s1).2.2.1.score = s1.score + 1 ∧
      (check_collisions rd js ps b s0 s1).1.spr.x = 0 ∧
      (check_collisions rd js ps b s0 s1).1.spr.y = 0) ∧
    (¬ TOP ≤ b.spr.hitbox.maxY →
      (check_collisions rd js ps b s0 s1).2.2.1.score = s1.score ∧
      (check_collisions rd js ps b s0 s1).1.spr.x = b.spr.x ∧
      (check_collisions rd js ps b s0 s1).1.spr.y = b.spr.y) := by
  unfold check_collisions
  rw [if_neg hw, if_neg hb]
  constructor
  · intro ht
    rw [if_pos (show b.spr.hitbox.maxY ≥ TOP from ht)]
    refine ⟨rfl, ?_, ?_⟩ <;>
      · rw [paddleLoop_spr]
        rfl
  · intro ht
    rw [if_neg (show ¬ b.spr.hitbox.maxY ≥ TOP from ht)]
    refine ⟨rfl, ?_, ?_⟩ <;> rw [paddleLoop_spr]

/-- C4, counterexample to the claim as stated: a ball whose hitbox top
edge is exactly `TOP - 10 = 290` (where the claim says the top goal
triggers) causes no score and no reset — the code's threshold is `TOP`
itself. -/
theorem c4_no_top_inset :
    topNearBall.spr.hitbox.maxY = TOP - 10 ∧
    (check_collisions (90, false) (fun _ => 0) [] topNearBall sk0 sk0).2.2.1.score
      = sk0.score ∧
    (check_collisions (90, false) (fun _ => 0) [] topNearBall sk0 sk0).1.spr.y
      = topNearBall.spr.y := by
  have h1 : ¬ (topNearBall.spr.hitbox.minX ≤ LEFT ∨
      topNearBall.spr.hitbox.maxX ≥ RIGHT) := by
    norm_num [topNearBall, LEFT, RIGHT]
  have h2 : ¬ (topNearBall.spr.hitbox.minY ≤ BOTTOM + 10) := by
    norm_num [topNearBall, BOTTOM]
  have h3 : ¬ (topNearBall.spr.hitbox.maxY ≥ TOP) := by
    norm_num [topNearBall, TOP]
  refine ⟨by norm_num [topNearBall, TOP], ?_, ?_⟩
  · unfold check_collisions
    rw [if_neg h1, if_neg h2, if_neg h3]
  · unfold check_collisions
    rw [if_neg h1, if_neg h2, if_neg h3]
    rfl

/-- C4, witness for the amended theorem at a ball past `TOP` (both
directions of the characterisation are exercised through the
hypotheses; the positive branch applies). -/
theorem c4_witness :
    (TOP ≤ topGoalBall.spr.hitbox.maxY →
      (check_collisions (90, false) (fun _ => 0) [] topGoalBall sk0 sk0).2.2.1.score
        = sk0.score + 1 ∧
      (check_collisions (90, false) (fun _ => 0) [] topGoalBall sk0 sk0).1.spr.x = 0 ∧
      (check_collisions (90, false) (fun _ => 0) [] topGoalBall sk0 sk0).1.spr.y = 0) ∧
    (¬ TOP ≤ topGoalBall.spr.hitbox.maxY →
      (check_collisions (90, false) (fun _ => 0) [] topGoalBall sk0 sk0).2.2.1.score
        = sk0.score ∧
      (check_collisions (90, false) (fun _ => 0) [] topGoalBall sk0 sk0).1.spr.x
        = topGoalBall.spr.x ∧
      (check_collisions (90, false) (fun _ => 0) [] topGoalBall sk0 sk0).1.spr.y
        = topGoalBall.spr.y) :=
  c4_top_goal_amended (90, false) (fun _ => 0) [] topGoalBall sk0 sk0
    (by norm_num [topGoalBall, LEFT, RIGHT])
    (by norm_num [topGoalBall, BOTTOM])

/-- One tick of `Paddle.update` with only the right intent set and the
right bound check passing: the paddle moves right by `shift` and its
hitbox is refreshed. -/
lemma update_right_guard_pos (p : Paddle) (hl : p.moving_left = false)
    (hr : p.moving_right = true)
    (hg : p.spr.hitbox.maxX < WIDTH/2 - PADDLE_BOUNDARY) :
    (Paddle.update p).1 =
      { spr :=
          { width := p.spr.width
            height := p.spr.height
            x := p.spr.x + p.shift
            y := p.spr.y
            hitbox := mkHitbox (p.spr.x + p.shift) p.spr.y p.spr.width p.spr.height
            changed := false }
        shift := p.shift
        moving_left := p.moving_left
        moving_right := p.moving_right } := by
  unfold Paddle.update Paddle.right
  simp only [hl, hr, Bool.false_eq_true, if_false, if_true, if_pos hg, update_hitbox]

/-- Draw-call count of a ball tick: whatever `check_collisions` issued
(one draw inside `reset` on a goal tick) plus the unconditional draw of
the final `Sprite.update` (the ball sets `changed = True` every
tick). -/
lemma ball_update_draws (cosF sinF : ℚ → ℚ) (rd : ℤ × Bool) (js : ℕ → ℤ)
    (ps : List Paddle) (b : Ball) (s0 s1 : Scorekeeper) :
    (Ball.update cosF sinF rd js ps b s0 s1).2.2.2
      = (check_collisions rd js ps b s0 s1).2.2.2 + 1 := rfl

/-- C6, amended.  "At most one draw call per tick per entity, zero when
`changed` is unset" holds for `Sprite.update` (scorekeepers) and for
`Paddle.update` (zero when additionally no intent is set, since an
intent sets `changed`), but *not* for the ball: `Ball.update` always
issues exactly one draw (it sets `changed = True` unconditionally) and
issues *two* draws on a goal tick — one inside `reset`, one from the
regular refresh. -/
theorem c6_draw_count_amended :
    (∀ s : Sprite, (sprite_update s).2 ≤ 1 ∧
      (s.changed = false → (sprite_update s).2 = 0)) ∧
    (∀ p : Paddle, (Paddle.update p).2 ≤ 1 ∧
      (p.spr.changed = false → p.moving_left = false → p.moving_right = false →
        (Paddle.update p).2 = 0)) ∧
    (∀ (cosF sinF : ℚ → ℚ) (rd : ℤ × Bool) (js : ℕ → ℤ) (ps : List Paddle)
        (b : Ball) (s0 s1 : Scorekeeper),
      (Ball.update cosF sinF rd js ps b s0 s1).2.2.2 =
        if ¬ (b.spr.hitbox.minX ≤ LEFT ∨ b.spr.hitbox.maxX ≥ RIGHT) ∧
            (b.spr.hitbox.minY ≤ BOTTOM + 10 ∨ b.spr.hitbox.maxY ≥ TOP) then 2
        else 1) := by
  refine ⟨?_, ?_, ?_⟩
  · intro s
    constructor
    · unfold sprite_update
      split <;> simp
    · intro h
      simp [sprite_update, h]
  · intro p
    constructor
    · by_cases hml : p.moving_left = true
      · simp [Paddle.update, hml]
      · by_cases hmr : p.moving_right = true
        · simp [Paddle.update, hml, hmr]
        · unfold Paddle.update
          simp only [hml, hmr, if_false, ite_false, Bool.false_eq_true]
          split <;> simp
    · intro h1 h2 h3
      simp [Paddle.update, h1, h2, h3]
  · intro cosF sinF rd js ps b s0 s1
    rw [ball_update_draws]
    unfold check_collisions
    by_cases hw : b.spr.hitbox.minX ≤ LEFT ∨ b.spr.hitbox.maxX ≥ RIGHT
    · rw [if_pos hw]
      simp [hw]
    · rw [if_neg hw]
      by_cases hb : b.spr.hitbox.minY ≤ BOTTOM + 10
      · rw [if_pos hb]
        simp [hw, hb]
      · rw [if_neg hb]
        by_cases ht : b.spr.hitbox.maxY ≥ TOP
        · rw [if_pos ht]
          simp [hw, hb, ht]
        · rw [if_neg ht]
          simp [hw, hb, ht]

/-- C6, counterexample to the claim as stated: on a bottom-goal tick
the ball's update issues two draw calls, not at most one. -/
theorem c6_goal_tick_draws_twice :
    (Ball.update (fun _ => 0) (fun _ => 0) (90, false) (fun _ => 0) []
        goalBall sk0 sk0).2.2.2 = 2 ∧
    ¬ ((Ball.update (fun _ => 0) (fun _ => 0) (90, false) (fun _ => 0) []
        goalBall sk0 sk0).2.2.2 ≤ 1) := by
  have h : (Ball.update (fun _ => 0) (fun _ => 0) (90, false) (fun _ => 0) []
      goalBall sk0 sk0).2.2.2 = 2 := by
    rw [ball_update_draws]
    unfold check_collisions
    rw [if_neg (by norm_num [goalBall, LEFT, RIGHT]),
        if_pos (by norm_num [goalBall, BOTTOM])]
  exact ⟨h, by rw [h]; norm_num⟩

/-- C6, witness for the amended theorem: the paddle clause applied at
the idle two-intent-free paddle `hitPaddle` (no intent, `changed`
clear) gives zero draws. -/
theorem c6_witness :
    (Paddle.update hitPaddle).2 = 0 :=
  (c6_draw_count_amended.2.1 hitPaddle).2 rfl rfl rfl

/-- C7: on a side-wall tick (and no paddle overlap, so the paddle loop
leaves the direction alone) the new direction is `180 - (dir mod 360)`,
so the cosine of the direction (horizontal velocity factor) is exactly
negated and the sine (vertical factor) preserved. -/
theorem c7_wall_bounce_reflection (rd : ℤ × Bool) (js : ℕ → ℤ) (ps : List Paddle)
    (b : Ball) (s0 s1 : Scorekeeper)
    (hw : b.spr.hitbox.minX ≤ LEFT ∨ b.spr.hitbox.maxX ≥ RIGHT)
    (hnp : ∀ q ∈ ps, ¬ hitsPaddle b.spr.hitbox q.spr.hitbox) :
    (check_collisions rd js ps b s0 s1).1.dir = 180 - pymod b.dir 360 ∧
    Real.cos (((check_collisions rd js ps b s0 s1).1.dir : ℝ) * Real.pi / 180)
      = -Real.cos ((b.dir : ℝ) * Real.pi / 180) ∧
    Real.sin (((check_collisions rd js ps b s0 s1).1.dir : ℝ) * Real.pi / 180)
      = Real.sin ((b.dir : ℝ) * Real.pi / 180) := by
  have hdir : (check_collisions rd js ps b s0 s1).1.dir = 180 - pymod b.dir 360 := by
    unfold check_collisions
    rw [if_pos hw]
    rw [paddleLoop_no_hit js ps 0 { b with dir := 180 - pymod b.dir 360 }
        (fun q hq => hnp q hq)]
  have h1 : ((180 - pymod b.dir 360 : ℚ) : ℝ) * Real.pi / 180
      = (Real.pi - (b.dir : ℝ) * Real.pi / 180) + (⌊b.dir / 360⌋ : ℤ) * (2 * Real.pi) := by
    unfold pymod
    push_cast
    ring
  refine ⟨hdir, ?_, ?_⟩
  · rw [hdir, h1, Real.cos_add_int_mul_two_pi, Real.cos_pi_sub]
  · rw [hdir, h1, Real.sin_add_int_mul_two_pi, Real.sin_pi_sub]

/-- C7, witness at the concrete ball touching the left wall, with no
paddles. -/
theorem c7_witness :
    (check_collisions (90, false) (fun _ => 0) [] wallBall sk0 sk0).1.dir
      = 180 - pymod wallBall.dir 360 ∧
    Real.cos (((check_collisions (90, false) (fun _ => 0) [] wallBall sk0 sk0).1.dir : ℝ)
        * Real.pi / 180)
      = -Real.cos ((wallBall.dir : ℝ) * Real.pi / 180) ∧
    Real.sin (((check_collisions (90, false) (fun _ => 0) [] wallBall sk0 sk0).1.dir : ℝ)
        * Real.pi / 180)
      = Real.sin ((wallBall.dir : ℝ) * Real.pi / 180) :=
  c7_wall_bounce_reflection (90, false) (fun _ => 0) [] wallBall sk0 sk0
    (by left; norm_num [wallBall, LEFT]) (by simp)

/-- C8: a registered paddle collision increments the bounce counter by
exactly one and sets the direction to
`90 + BOUNCE_SHARPNESS*(paddle.x - ball.x)/paddle.width + jitter` for a
bottom-half paddle (`y < 0`) and
`270 - BOUNCE_SHARPNESS*(paddle.x - ball.x)/paddle.width + jitter`
otherwise, for a jitter in `[-BOUNCE_RAND_FACTOR, BOUNCE_RAND_FACTOR]`
(the source's `sharpness*((px-bx)/2)/(pw/2)` cancels to
`sharpness*(px-bx)/pw`). -/
theorem c8_bounce_formula (js : ℕ → ℤ) (k : ℕ) (p : Paddle) (b : Ball)
    (hhit : hitsPaddle b.spr.hitbox p.spr.hitbox)
    (hj1 : -BOUNCE_RAND_FACTOR ≤ js k) (hj2 : js k ≤ BOUNCE_RAND_FACTOR) :
    (paddleLoop js k [p] b).bounces = b.bounces + 1 ∧
    ∃ j : ℤ, -BOUNCE_RAND_FACTOR ≤ j ∧ j ≤ BOUNCE_RAND_FACTOR ∧
      (paddleLoop js k [p] b).dir =
        (if p.spr.y < 0 then
          90 + BOUNCE_SHARPNESS * (p.spr.x - b.spr.x) / p.spr.width + ((j : ℚ))
        else
          270 - BOUNCE_SHARPNESS * (p.spr.x - b.spr.x) / p.spr.width + ((j : ℚ))) := by
  have hl : paddleLoop js k [p] b = paddleBounce (js k) p b := by
    show (if hitsPaddle b.spr.hitbox p.spr.hitbox then
            paddleLoop js (k+1) [] (paddleBounce (js k) p b)
          else paddleLoop js k [] b) = paddleBounce (js k) p b
    rw [if_pos hhit]
    rfl
  rw [hl]
  constructor
  · unfold paddleBounce
    split <;> rfl
  · refine ⟨js k, hj1, hj2, ?_⟩
    by_cases hy : p.spr.y < 0
    · simp only [paddleBounce, if_pos hy]
      rw [half_div_half]
    · simp only [paddleBounce, if_neg hy]
      rw [half_div_half]

/-- C8, witness at a concrete bottom paddle and overlapping ball, with
jitter 7. -/
theorem c8_witness :
    (paddleLoop (fun _ => 7) 0 [hitPaddle] hitBall).bounces = hitBall.bounces + 1 ∧
    ∃ j : ℤ, -BOUNCE_RAND_FACTOR ≤ j ∧ j ≤ BOUNCE_RAND_FACTOR ∧
      (paddleLoop (fun _ => 7) 0 [hitPaddle] hitBall).dir =
        (if hitPaddle.spr.y < 0 then
          90 + BOUNCE_SHARPNESS * (hitPaddle.spr.x - hitBall.spr.x)
            / hitPaddle.spr.width + ((j : ℚ))
        else
          270 - BOUNCE_SHARPNESS * (hitPaddle.spr.x - hitBall.spr.x)
            / hitPaddle.spr.width + ((j : ℚ))) :=
  c8_bounce_formula (fun _ => 7) 0 hitPaddle hitBall
    (by norm_num [hitsPaddle, hitBall, hitPaddle])
    (by norm_num [BOUNCE_RAND_FACTOR]) (by norm_num [BOUNCE_RAND_FACTOR])

/-- C9: the direction rolled by `rand_dir` (used both at creation and
by `reset`) always lies in `[25, 155] ∪ [205, 335]` — never within 25
degrees of the x-axis in either half-plane — and `reset` installs
exactly that direction. -/
theorem c9_launch_angle (d : ℤ) (c : Bool) (b : Ball)
    (h1 : 25 ≤ d) (h2 : d ≤ 155) :
    ((25 ≤ rand_dir d c ∧ rand_dir d c ≤ 155) ∨
      (205 ≤ rand_dir d c ∧ rand_dir d c ≤ 335)) ∧
    (Ball.reset (d, c) b).dir = rand_dir d c := by
  have h1q : (25:ℚ) ≤ (d:ℚ) := by exact_mod_cast h1
  have h2q : (d:ℚ) ≤ 155 := by exact_mod_cast h2
  constructor
  · cases c with
    | false =>
      left
      have hv : rand_dir d false = (d:ℚ) := rfl
      rw [hv]
      exact ⟨h1q, h2q⟩
    | true =>
      right
      have hv : rand_dir d true = (d:ℚ) + 180 := rfl
      rw [hv]
      constructor <;> linarith
  · rfl

/-- C9, witness at `d = 90` heads. -/
theorem c9_witness :
    ((25 ≤ rand_dir 90 true ∧ rand_dir 90 true ≤ 155) ∨
      (205 ≤ rand_dir 90 true ∧ rand_dir 90 true ≤ 335)) ∧
    (Ball.reset (90, true) cornerBall).dir = rand_dir 90 true :=
  c9_launch_angle 90 true cornerBall (by norm_num) (by norm_num)

/-- C5, amended.  The AI paddle does *not* move by a single shift per
tick: `AIPaddle.update` applies the bounds-checked shift once itself
and then `super().update()` (`Paddle.update`) applies it a second time
against the not-yet-refreshed hitbox, so a tracking tick with exactly
one intent and a passing bound check displaces the paddle by
`2 * base_speed`, not `base_speed`. -/
theorem c5_ai_double_shift_amended (rs : ℤ) (rb : Bool) (ballx bally : ℚ)
    (a : AIPaddle)
    (hsee : |a.pad.spr.y - bally| < AI_VISIBILITY_RANGE)
    (hfar : ¬ (|a.pad.spr.x - ballx| < 3/2 * a.base_speed)) :
    (a.pad.spr.x > ballx →
      a.pad.spr.hitbox.minX > -WIDTH/2 + PADDLE_BOUNDARY →
      (AIPaddle.update rs rb ballx bally a).1.pad.spr.x
        = a.pad.spr.x - 2 * a.base_speed) ∧
    (¬ (a.pad.spr.x > ballx) →
      a.pad.spr.hitbox.maxX < WIDTH/2 - PADDLE_BOUNDARY →
      (AIPaddle.update rs rb ballx bally a).1.pad.spr.x
        = a.pad.spr.x + 2 * a.base_speed) := by
  constructor
  · intro hd hbound
    simp only [AIPaddle.update, if_pos hsee]
    simp only [AIPaddle.set_dir]
    simp only [if_true, if_neg hfar, if_pos hd]
    simp only [Paddle.left, if_pos hbound]
    simp only [Bool.false_eq_true, if_false]
    rw [update_left_guard_pos
      { spr := { width := a.pad.spr.width, height := a.pad.spr.height,
                 x := a.pad.spr.x - a.base_speed, y := a.pad.spr.y,
                 hitbox := a.pad.spr.hitbox, changed := true },
        shift := a.base_speed, moving_left := true, moving_right := false }
      rfl hbound]
    show a.pad.spr.x - a.base_speed - a.base_speed = a.pad.spr.x - 2 * a.base_speed
    ring
  · intro hd hbound
    simp only [AIPaddle.update, if_pos hsee]
    simp only [AIPaddle.set_dir]
    simp only [if_true, if_neg hfar, if_neg hd]
    simp only [Bool.false_eq_true, if_false]
    simp only [Paddle.right, if_pos hbound]
    simp only [if_true]
    rw [update_right_guard_pos
      { spr := { width := a.pad.spr.width, height := a.pad.spr.height,
                 x := a.pad.spr.x + a.base_speed, y := a.pad.spr.y,
                 hitbox := a.pad.spr.hitbox, changed := true },
        shift := a.base_speed, moving_left := false, moving_right := true }
      rfl rfl hbound]
    show a.pad.spr.x + a.base_speed + a.base_speed = a.pad.spr.x + 2 * a.base_speed
    ring

/-- C5, counterexample to the claim as stated: the concrete AI paddle
at `x = 0` tracking a ball at `x = -100` moves to `x = -10` in one tick
(two shifts of its speed 5), not to `x = -5`. -/
theorem c5_ai_moves_twice :
    (AIPaddle.update 0 false (-100) (-250) ai0).1.pad.spr.x
      = ai0.pad.spr.x - 2 * ai0.base_speed ∧
    (AIPaddle.update 0 false (-100) (-250) ai0).1.pad.spr.x
      ≠ ai0.pad.spr.x - ai0.base_speed := by
  have hsee : |ai0.pad.spr.y - (-250 : ℚ)| < AI_VISIBILITY_RANGE := by
    norm_num [ai0, AI_VISIBILITY_RANGE]
  have hfar : ¬ (|ai0.pad.spr.x - (-100 : ℚ)| < 3/2 * ai0.base_speed) := by
    norm_num [ai0]
  have hd : ai0.pad.spr.x > (-100 : ℚ) := by norm_num [ai0]
  have hbound : ai0.pad.spr.hitbox.minX > -WIDTH/2 + PADDLE_BOUNDARY := by
    norm_num [ai0, WIDTH, PADDLE_BOUNDARY]
  have h : (AIPaddle.update 0 false (-100) (-250) ai0).1.pad.spr.x
      = ai0.pad.spr.x - ai0.base_speed - ai0.base_speed := by
    simp only [AIPaddle.update, if_pos hsee]
    simp only [AIPaddle.set_dir]
    simp only [if_true, if_neg hfar, if_pos hd]
    simp only [Paddle.left, if_pos hbound]
    simp only [Bool.false_eq_true, if_false]
    rw [update_left_guard_pos
      { spr := { width := ai0.pad.spr.width, height := ai0.pad.spr.height,
                 x := ai0.pad.spr.x - ai0.base_speed, y := ai0.pad.spr.y,
                 hitbox := ai0.pad.spr.hitbox, changed := true },
        shift := ai0.base_speed, moving_left := true, moving_right := false }
      rfl hbound]
  rw [h]
  constructor
  · norm_num [ai0]
  · norm_num [ai0]

/-- C5, witness for the amended theorem at the concrete AI paddle
`ai0` and a ball at `(-100, -250)`. -/
theorem c5_witness :
    (ai0.pad.spr.x > (-100 : ℚ) →
      ai0.pad.spr.hitbox.minX > -WIDTH/2 + PADDLE_BOUNDARY →
      (AIPaddle.update 0 false (-100) (-250) ai0).1.pad.spr.x
        = ai0.pad.spr.x - 2 * ai0.base_speed) ∧
    (¬ (ai0.pad.spr.x > (-100 : ℚ)) →
      ai0.pad.spr.hitbox.maxX < WIDTH/2 - PADDLE_BOUNDARY →
      (AIPaddle.update 0 false (-100) (-250) ai0).1.pad.spr.x
        = ai0.pad.spr.x + 2 * ai0.base_speed) :=
  c5_ai_double_shift_amended 0 false (-100) (-250) ai0
    (by norm_num [ai0, AI_VISIBILITY_RANGE]) (by norm_num [ai0])

end Pong
